import Mathlib

/-!
Verification of the AnomChatBot channel bridge and conversation pipeline.

The definitions below are a shallow embedding of the Python source:

* `src/src/models.py`            — data model (`Conversation`, `Message`);
* `src/src/database.py`          — `DatabaseManager` read/write operations;
* `src/src/config.py`            — `Config.get_system_prompt` / `Config._get_level_key`;
* `src/src/conversation/conversation_manager.py` — `ConversationManager`;
* `src/src/whatsapp/whatsapp_bot_impl.py` — `WhatsAppBotImplementation`
  (`_check_rate_limit`, `handle_incoming_message`, `_message_listener`, `start`).

Conventions: Python `float` values (levels, timestamps, temperatures) are
modelled as `ℚ`; Python dictionaries as insertion-ordered association lists;
`datetime` columns are not modelled, except that `Message.created_at` ordering
is represented by list insertion order (timestamps are assigned monotonically
at insertion).  External collaborators (the AI backend, the media analyser and
the WhatsApp driver) enter as explicit oracle arguments.  Effects that the
claims talk about (AI invocations, outbound sends, pipeline invocations) are
returned as explicit traces.
-/

/-- Data model of the `conversations` table (`src/src/models.py`, class
`Conversation`).  Field defaults mirror the column defaults. -/
structure Conversation where
  chat_id : String
  platform : String
  contact_name : Option String := none
  contact_number : Option String := none
  is_active : Bool := true
  first_message_sent : Bool := false
  system_prompt : Option String := none
  tone_level : ℚ := 1/2
  flirt_level : ℚ := 0
  temperature : ℚ := 7/10
  max_tokens : Nat := 2000
deriving DecidableEq

/-- Data model of the `messages` table (`src/src/models.py`, class `Message`).
The owning conversation is identified by its `chat_id` (the `conversation_id`
foreign key composed with the unique `chat_id` column). -/
structure StoredMessage where
  chat_id : String
  role : String
  content : Option String
  message_type : String := "text"
  media_path : Option String := none
  token_count : Nat := 0
  processing_time : Option ℚ := none
deriving DecidableEq

/-- The durable store: the two tables the pipeline reads and writes.
`messages` is kept in insertion (hence chronological `created_at`) order. -/
structure Db where
  conversations : List Conversation := []
  messages : List StoredMessage := []
deriving DecidableEq

/-- DatabaseManager.get_conversation (`src/src/database.py:115`). -/
def getConversation (db : Db) (chat : String) : Option Conversation :=
  db.conversations.find? (fun c => c.chat_id == chat)

/-- DatabaseManager.get_or_create_conversation (`src/src/database.py:40`).
Returns the conversation together with the (possibly extended) store. -/
def getOrCreateConversation (db : Db) (chat platform : String)
    (name number : Option String) : Conversation × Db :=
  match getConversation db chat with
  | some c => (c, db)
  | none =>
      let c : Conversation :=
        { chat_id := chat, platform := platform,
          contact_name := name, contact_number := number }
      (c, { conversations := db.conversations ++ [c], messages := db.messages })

/-- DatabaseManager.mark_first_message_sent (`src/src/database.py:102`). -/
def markFirstMessageSent (db : Db) (chat : String) : Db :=
  { conversations :=
      db.conversations.map
        (fun c => if c.chat_id == chat then { c with first_message_sent := true } else c),
    messages := db.messages }

/-- DatabaseManager.add_message (`src/src/database.py:145`): raises
`ValueError` (here: `none`) when the conversation does not exist, otherwise
appends the new message row. -/
def addMessage (db : Db) (chat role content mtype : String)
    (mpath : Option String) (tok : Nat) (ptime : Option ℚ) : Option Db :=
  match getConversation db chat with
  | none => none
  | some _ =>
      some { conversations := db.conversations,
             messages := db.messages ++
               [{ chat_id := chat, role := role, content := some content,
                  message_type := mtype, media_path := mpath,
                  token_count := tok, processing_time := ptime }] }

/-- The message rows belonging to one conversation, in chronological order. -/
def chatMessages (db : Db) (chat : String) : List StoredMessage :=
  db.messages.filter (fun m => m.chat_id == chat)

/-- DatabaseManager.get_conversation_history (`src/src/database.py:190`):
empty when the conversation is missing; otherwise the rows ordered by
`created_at` descending, limited, then reversed back to chronological order. -/
def getConversationHistory (db : Db) (chat : String) (limit : Nat) :
    List StoredMessage :=
  match getConversation db chat with
  | none => []
  | some _ => (((chatMessages db chat).reverse).take limit).reverse

/-- DatabaseManager.update_conversation_settings (`src/src/database.py:68`):
each field is overwritten only when the corresponding argument is present. -/
def updateConversationSettings (db : Db) (chat : String)
    (sp : Option String) (tone flirt temp : Option ℚ) : Db :=
  { conversations :=
      db.conversations.map (fun c =>
        if c.chat_id == chat then
          { c with
            system_prompt := match sp with | some s => some s | none => c.system_prompt,
            tone_level := tone.getD c.tone_level,
            flirt_level := flirt.getD c.flirt_level,
            temperature := temp.getD c.temperature }
        else c),
    messages := db.messages }

/-! Association lists standing in for Python dictionaries (insertion order,
unique keys). -/

/-- Python `d.get(k)` / `k in d` lookup. -/
def dictFind {α : Type} : List (String × α) → String → Option α
  | [], _ => none
  | p :: rest, k => if p.1 == k then some p.2 else dictFind rest k

/-- Python `d.get(k, v₀)`. -/
def dictGetD {α : Type} (d : List (String × α)) (k : String) (v₀ : α) : α :=
  (dictFind d k).getD v₀

/-- Python `d[k] = v`: replace the existing binding in place, else append. -/
def dictSet {α : Type} : List (String × α) → String → α → List (String × α)
  | [], k, v => [(k, v)]
  | p :: rest, k, v =>
      if p.1 == k then (k, v) :: rest else p :: dictSet rest k v

/-- Python `del d[k]`. -/
def dictRemove {α : Type} (d : List (String × α)) (k : String) :
    List (String × α) :=
  d.filter (fun p => !(p.1 == k))

/-! Configuration (`src/src/config.py`). -/

/-- The configuration fields consumed by the conversation pipeline
(`src/src/config.py`).  `max_conversation_history` defaults to `50`, the
parsed default of the `MAX_CONVERSATION_HISTORY` environment variable. -/
structure Config where
  base_prompt : String
  tone_levels : List (String × ℚ) := []
  flirt_levels : List (String × ℚ) := []
  tone_modifiers : List (String × String) := []
  flirt_modifiers : List (String × String) := []
  max_conversation_history : Nat := 50
deriving DecidableEq

/-- Loop body of Config._get_level_key (`src/src/config.py:168`): scan the
level table keeping the current best key and its distance; the initial
distance `none` plays the role of `float('inf')`, and a later entry replaces
the best only on a strictly smaller distance. -/
def getLevelKeyGo (level : ℚ) :
    List (String × ℚ) → Option String → Option ℚ → Option String
  | [], best, _ => best
  | (k, v) :: rest, best, bestDiff =>
      let diff := |v - level|
      let better : Bool :=
        match bestDiff with
        | none => true
        | some d => decide (diff < d)
      if better then getLevelKeyGo level rest (some k) (some diff)
      else getLevelKeyGo level rest best bestDiff

/-- Config._get_level_key (`src/src/config.py:168`). -/
def getLevelKey (level : ℚ) (table : List (String × ℚ)) : Option String :=
  getLevelKeyGo level table none none

/-- Modelled from the spec's words for §4.4 step 6 ("closest numeric level
wins; ties resolved by first-encountered key"): the first entry of the table
whose distance to the requested level is no larger than every other entry's
distance. -/
def specLevelKey (level : ℚ) (table : List (String × ℚ)) : Option String :=
  (table.find? (fun p =>
    table.all (fun q => decide (|p.2 - level| ≤ |q.2 - level|)))).map Prod.fst

/-- Shared tail of Config.get_system_prompt (`src/src/config.py:141`) once the
tone and flirt keys have been selected: truthiness of the key and of the flirt
modifier text is checked exactly as in the Python source. -/
def promptWithKeys (cfg : Config) (tk fk : Option String) : String :=
  let p1 :=
    match tk with
    | none => cfg.base_prompt
    | some k =>
        if k = "" then cfg.base_prompt
        else
          match dictFind cfg.tone_modifiers k with
          | none => cfg.base_prompt
          | some m => cfg.base_prompt ++ " " ++ m
  match fk with
  | none => p1
  | some k =>
      if k = "" then p1
      else
        match dictFind cfg.flirt_modifiers k with
        | none => p1
        | some m => if m = "" then p1 else p1 ++ " " ++ m

/-- Config.get_system_prompt with no (truthy) custom prompt. -/
def buildDefaultPrompt (cfg : Config) (tone flirt : ℚ) : String :=
  promptWithKeys cfg (getLevelKey tone cfg.tone_levels)
    (getLevelKey flirt cfg.flirt_levels)

/-- The same prompt, but with the nearest-match lookup replaced by the
spec-worded `specLevelKey`. -/
def specDefaultPrompt (cfg : Config) (tone flirt : ℚ) : String :=
  promptWithKeys cfg (specLevelKey tone cfg.tone_levels)
    (specLevelKey flirt cfg.flirt_levels)

/-- Config.get_system_prompt (`src/src/config.py:141`): `if custom_prompt:`
is Python truthiness, so `none` and the empty string both fall through to the
modifier construction. -/
def getSystemPrompt (cfg : Config) (tone flirt : ℚ)
    (custom : Option String) : String :=
  match custom with
  | some s => if s = "" then buildDefaultPrompt cfg tone flirt else s
  | none => buildDefaultPrompt cfg tone flirt

/-! Rate limiter (`src/src/whatsapp/whatsapp_bot_impl.py:255`,
`WhatsAppBotImplementation._check_rate_limit`). -/

/-- The two per-chat dictionaries of the rate limiter
(`self.message_count`, `self.last_message_time`). -/
structure RateState where
  message_count : List (String × Nat) := []
  last_message_time : List (String × ℚ) := []
deriving DecidableEq

/-- WhatsAppBotImplementation._check_rate_limit: reset the chat's counter when
the chat is unknown or more than an hour has passed since its recorded
last-send time; reject on a full counter or on spacing below two seconds;
otherwise count and accept.  Returns the verdict and the updated state. -/
def checkRateLimit (st : RateState) (chat : String) (now : ℚ) :
    Bool × RateState :=
  let st1 :=
    if (dictFind st.message_count chat).isNone
        || decide (now - dictGetD st.last_message_time chat 0 > 3600) then
      { message_count := dictSet st.message_count chat 0,
        last_message_time := dictSet st.last_message_time chat now }
    else st
  if 20 ≤ dictGetD st1.message_count chat 0 then (false, st1)
  else if now - dictGetD st1.last_message_time chat 0 < 2 then (false, st1)
  else
    (true,
      { message_count :=
          dictSet st1.message_count chat (dictGetD st1.message_count chat 0 + 1),
        last_message_time := dictSet st1.last_message_time chat now })

/-- Folding the rate-limit check over a list of timed events for possibly
several chats, collecting each event's verdict in order. -/
def rateRun (st : RateState) : List (String × ℚ) → RateState × List Bool
  | [] => (st, [])
  | (chat, t) :: rest =>
      let (ok, st1) := checkRateLimit st chat t
      let (st2, verdicts) := rateRun st1 rest
      (st2, ok :: verdicts)

/-! Conversation manager (`src/src/conversation/conversation_manager.py`). -/

/-- One value of the `pending_first_messages` dictionary
(`ConversationManager.set_pending_first_message`); the `timestamp` entry is
not modelled. -/
structure PendingEntry where
  message : String
  system_prompt : Option String := none
  tone_level : ℚ := 1/2
  flirt_level : ℚ := 0
deriving DecidableEq

/-- In-memory state of the ConversationManager: the pending-first-message
dictionary keyed by chat id. -/
structure CMState where
  pending_first_messages : List (String × PendingEntry) := []
deriving DecidableEq

/-- ConversationManager.get_pending_first_message
(`src/src/conversation/conversation_manager.py:140`). -/
def getPendingFirstMessage (cm : CMState) (chat : String) : Option String :=
  (dictFind cm.pending_first_messages chat).map (fun p => p.message)

/-- ConversationManager.clear_pending_first_message
(`src/src/conversation/conversation_manager.py:152`). -/
def clearPendingFirstMessage (cm : CMState) (chat : String) : CMState :=
  { pending_first_messages := dictRemove cm.pending_first_messages chat }

/-- ConversationManager.set_pending_first_message
(`src/src/conversation/conversation_manager.py:98`): validates the levels
(`none` models the raised `ValueError`), records the pending entry and
configures the conversation's settings. -/
def setPendingFirstMessage (cm : CMState) (db : Db) (chat msg : String)
    (sp : Option String) (tone flirt : ℚ) : Option (CMState × Db) :=
  if 0 ≤ tone ∧ tone ≤ 1 ∧ 0 ≤ flirt ∧ flirt ≤ 1 then
    some
      ({ pending_first_messages :=
           dictSet cm.pending_first_messages chat
             { message := msg, system_prompt := sp,
               tone_level := tone, flirt_level := flirt } },
        updateConversationSettings db chat sp (some tone) (some flirt) none)
  else none

/-- The content actually stored for an inbound message
(`conversation_manager.py:191-203`): the media-derived description — when a
media path is present and the description is truthy — goes in front of the
message text. -/
def fullContentOf (text : Option String) (mtype : String)
    (mpath mdesc : Option String) : String :=
  let base := text.getD ""
  match mpath with
  | none => base
  | some _ =>
      match mdesc with
      | none => base
      | some d =>
          if d = "" then base
          else "[Käyttäjä lähetti " ++ mtype ++ "] " ++ d ++ "\n" ++ base

/-- The message row persisted for an inbound user message. -/
def mkUserMessage (chat content mtype : String) (mpath : Option String) :
    StoredMessage :=
  { chat_id := chat, role := "user", content := some content,
    message_type := mtype, media_path := mpath,
    token_count := 0, processing_time := none }

/-- ConversationManager._format_history_for_ai
(`src/src/conversation/conversation_manager.py:300`): drop system-role rows
and keep ordered (role, content) pairs, null content becoming `""`. -/
def formatHistoryForAI (msgs : List StoredMessage) : List (String × String) :=
  (msgs.filter (fun m => !(m.role == "system"))).map
    (fun m => (m.role, m.content.getD ""))

/-- The model input assembled by steps 5 of §4.4
(`conversation_manager.py:215-222`). -/
def buildContext (cfg : Config) (db : Db) (chat : String) :
    List (String × String) :=
  formatHistoryForAI (getConversationHistory db chat cfg.max_conversation_history)

/-- Result of one `process_incoming_message` call: the updated store, the
returned reply, and the number of AI-generation invocations made. -/
structure ProcOut where
  db : Db
  response : Option String
  aiCalls : Nat

/-- ConversationManager.process_incoming_message
(`src/src/conversation/conversation_manager.py:157`).  `mdesc` is the media
collaborator's description output (`_process_media`), `ai` the outcome of the
AI backend's `generate_response` (`Except.error` models a raised exception
reaching the `except` clause).  The measured wall-clock latency is modelled
as `0`. -/
def processIncomingMessage (cfg : Config) (db : Db) (chat : String)
    (text : Option String) (mtype : String) (mpath mdesc : Option String)
    (ai : Except Unit (String × Nat)) : ProcOut :=
  match getConversation db chat with
  | none => { db := db, response := none, aiCalls := 0 }
  | some conv =>
      if conv.first_message_sent = false then
        { db := db, response := none, aiCalls := 0 }
      else
        let content := fullContentOf text mtype mpath mdesc
        match addMessage db chat "user" content mtype mpath 0 none with
        | none => { db := db, response := none, aiCalls := 0 }
        | some db1 =>
            let _history := getConversationHistory db1 chat cfg.max_conversation_history
            let _messages := formatHistoryForAI _history
            let _sysPrompt :=
              getSystemPrompt cfg conv.tone_level conv.flirt_level conv.system_prompt
            match ai with
            | .error _ => { db := db1, response := none, aiCalls := 1 }
            | .ok (resp, tok) =>
                match addMessage db1 chat "assistant" resp "text" none tok (some 0) with
                | none => { db := db1, response := none, aiCalls := 1 }
                | some db2 => { db := db2, response := some resp, aiCalls := 1 }

/-! WhatsApp bot implementation
(`src/src/whatsapp/whatsapp_bot_impl.py`). -/

/-- Result of one `handle_incoming_message` call: manager state, store, the
texts sent to the chat, and the number of AI invocations. -/
structure HandleOut where
  cm : CMState
  db : Db
  sent : List String
  aiCalls : Nat

/-- AI path of `handle_incoming_message` (`whatsapp_bot_impl.py:341-353`):
process the message and send the reply when it is truthy. -/
def handleAiPath (cfg : Config) (cm : CMState) (db : Db) (chat : String)
    (text : Option String) (mtype : String) (mpath mdesc : Option String)
    (ai : Except Unit (String × Nat)) : HandleOut :=
  let o := processIncomingMessage cfg db chat text mtype mpath mdesc ai
  match o.response with
  | some r =>
      if r = "" then { cm := cm, db := o.db, sent := [], aiCalls := o.aiCalls }
      else { cm := cm, db := o.db, sent := [r], aiCalls := o.aiCalls }
  | none => { cm := cm, db := o.db, sent := [], aiCalls := o.aiCalls }

/-- WhatsAppBotImplementation.handle_incoming_message
(`src/src/whatsapp/whatsapp_bot_impl.py:313`): get-or-create the
conversation, discharge a truthy pending first message (send it, mark the
flag in the store, clear the pending slot, return), else run the AI path. -/
def handleIncomingMessage (cfg : Config) (cm : CMState) (db : Db)
    (chat name number : String) (text : Option String) (mtype : String)
    (mpath mdesc : Option String) (ai : Except Unit (String × Nat)) :
    HandleOut :=
  let dbc := (getOrCreateConversation db chat "whatsapp" (some name) (some number)).2
  match getPendingFirstMessage cm chat with
  | some m =>
      if m = "" then handleAiPath cfg cm dbc chat text mtype mpath mdesc ai
      else
        { cm := clearPendingFirstMessage cm chat,
          db := markFirstMessageSent dbc chat,
          sent := [m], aiCalls := 0 }
  | none => handleAiPath cfg cm dbc chat text mtype mpath mdesc ai

/-- One classified inbound event for a fixed chat, together with the oracle
outcomes of its external collaborators. -/
structure InEvent where
  text : Option String
  mtype : String := "text"
  mpath : Option String := none
  mdesc : Option String := none
  ai : Except Unit (String × Nat) := .error ()

/-- Handling a whole sequence of inbound events for one chat, accumulating
sent texts and AI invocations. -/
def runHandle (cfg : Config) (chat name number : String) :
    CMState → Db → List InEvent → CMState × Db × List String × Nat
  | cm, db, [] => (cm, db, [], 0)
  | cm, db, e :: rest =>
      let o := handleIncomingMessage cfg cm db chat name number
        e.text e.mtype e.mpath e.mdesc e.ai
      let r := runHandle cfg chat name number o.cm o.db rest
      (r.1, r.2.1, o.sent ++ r.2.2.1, o.aiCalls + r.2.2.2)

/-! Message listener of the operative implementation
(`src/src/whatsapp/whatsapp_bot_impl.py:173`, `_message_listener` together
with `_process_message`): every unread event of every poll cycle from an
individual (non-group) chat goes through the rate-limit check and then
straight to `handle_incoming_message` — there is no deduplication window in
this listener. -/

/-- One raw event as delivered by the driver's unread fetch. -/
structure RawEvent where
  msg_id : Nat
  chat_id : String
  is_group : Bool := false
  tstamp : ℚ
deriving DecidableEq

/-- WhatsAppBotImplementation._process_message for one event: rate-check,
then (on acceptance) invoke the pipeline; the returned list records the
`msg_id` of each pipeline invocation. -/
def implProcessEvent (st : RateState × List Nat) (e : RawEvent) :
    RateState × List Nat :=
  let v := checkRateLimit st.1 e.chat_id e.tstamp
  if v.1 then (v.2, st.2 ++ [e.msg_id]) else (v.2, st.2)

/-- One poll cycle of WhatsAppBotImplementation._message_listener: group
chats are skipped, every other event is processed. -/
def implListenerCycle (st : RateState × List Nat) (batch : List RawEvent) :
    RateState × List Nat :=
  batch.foldl (fun s e => if e.is_group then s else implProcessEvent s e) st

/-- Several poll cycles of the listener loop. -/
def implListenerRun (st : RateState × List Nat)
    (cycles : List (List RawEvent)) : RateState × List Nat :=
  cycles.foldl implListenerCycle st

/-! Session start (`src/src/whatsapp/whatsapp_bot_impl.py:69`,
`WhatsAppBotImplementation.start`, driver-available path). -/

/-- Login-wait loop of `start` (`whatsapp_bot_impl.py:99-106`): `loggedIn t`
is the driver's `is_logged_in()` at elapsed time `t`; the loop checks it,
raises after more than 120 elapsed seconds, and otherwise sleeps 2 seconds.
Returns the elapsed time at which login was observed, or `none` for the
raised `TimeoutError`. -/
def waitLogin (loggedIn : Nat → Bool) (t : Nat) : Option Nat :=
  if loggedIn t then some t
  else if 120 < t then none
  else waitLogin loggedIn (t + 2)
termination_by 123 - t
decreasing_by omega

/-- WhatsAppBotImplementation.start, driver-available path with no valid
saved session: wait for login; on success record `whatsapp_connected = true`
and return; on timeout the `except` clause records
`whatsapp_connected = false` and re-raises.  First component: the call's
outcome; second: the recorded connected status. -/
def startWa (loggedIn : Nat → Bool) : Except String Unit × Bool :=
  match waitLogin loggedIn 0 with
  | some _ => (.ok (), true)
  | none => (.error "WhatsApp login timeout - QR code not scanned", false)

/-! Concrete example states used by the counterexamples and witnesses below. -/

/-- Fixed example configuration used by concrete witnesses. -/
def cfgW : Config := { base_prompt := "Olet avulias assistentti." }

/-- Example store: one conversation `"c"` with the column defaults (so
`first_message_sent` is false) and no messages. -/
def dbW : Db :=
  { conversations := [{ chat_id := "c", platform := "whatsapp" }],
    messages := [] }

/-- Example store with the gate already open (`first_message_sent` true). -/
def dbT : Db :=
  { conversations :=
      [{ chat_id := "c", platform := "whatsapp", first_message_sent := true }],
    messages := [] }

/-- Example store used by the C9 witness: an open conversation with a user
row, a system row and an assistant row. -/
def dbH : Db :=
  { conversations :=
      [{ chat_id := "c", platform := "whatsapp", first_message_sent := true }],
    messages :=
      [{ chat_id := "c", role := "user", content := some "moi" },
       { chat_id := "c", role := "system", content := some "ohje" },
       { chat_id := "c", role := "assistant", content := some "hei" }] }

/-- Event sequence for the C5 counterexample: a warm-up event at t = 0
(rejected by the reset branch), twenty accepted events at t = 10 … 200, and
one event at t = 3611 — more than one hour after the window's first counted
event (t = 10), but less than one hour after its last accepted event
(t = 200). -/
def c5Events : List (String × ℚ) :=
  [("c", 0), ("c", 10), ("c", 20), ("c", 30), ("c", 40), ("c", 50),
   ("c", 60), ("c", 70), ("c", 80), ("c", 90), ("c", 100), ("c", 110),
   ("c", 120), ("c", 130), ("c", 140), ("c", 150), ("c", 160), ("c", 170),
   ("c", 180), ("c", 190), ("c", 200), ("c", 3611)]

/-! Helper lemmas on the dictionary model. -/

theorem dictFind_dictSet_self {α : Type} (d : List (String × α)) (k : String)
    (v : α) : dictFind (dictSet d k v) k = some v := by
  induction d with
  | nil => simp [dictSet, dictFind]
  | cons p rest ih =>
      by_cases h : p.1 = k
      · simp [dictSet, dictFind, h]
      · simp [dictSet, dictFind, h, ih]

theorem dictGetD_dictSet_self {α : Type} (d : List (String × α)) (k : String)
    (v v₀ : α) : dictGetD (dictSet d k v) k v₀ = v := by
  simp [dictGetD, dictFind_dictSet_self]

/-! Claim C7. -/

/-- Claim C7: whenever the chat has no entry in the rate-limiter's counter
dictionary, or the current event arrives more than 3600 seconds after the
chat's recorded last-send timestamp, `_check_rate_limit` takes the reset
branch — which sets the last-send timestamp to the current time — and the
subsequent minimum-spacing comparison (elapsed 0 < 2) therefore rejects the
event: the verdict is `false`, with the counter left at 0 and the last-send
time at `now`. -/
theorem c7_reset_branch_always_rejects (st : RateState) (chat : String)
    (now : ℚ)
    (h : dictFind st.message_count chat = none ∨
      ∃ l, dictFind st.last_message_time chat = some l ∧ now - l > 3600) :
    (checkRateLimit st chat now).1 = false ∧
    dictFind (checkRateLimit st chat now).2.message_count chat = some 0 ∧
    dictFind (checkRateLimit st chat now).2.last_message_time chat = some now := by
  have hb : ((dictFind st.message_count chat).isNone
      || decide (now - dictGetD st.last_message_time chat 0 > 3600)) = true := by
    rcases h with h | ⟨l, hl, hgt⟩
    · simp [h]
    · simp [dictGetD, hl]
      exact Or.inr hgt
  simp only [checkRateLimit, hb, if_true]
  simp [dictGetD_dictSet_self, dictFind_dictSet_self]

/-- Witness for C7 at a concrete input: an empty rate-limiter state (the
chat's first-ever event). -/
theorem c7_reset_branch_always_rejects_witness :
    (checkRateLimit { message_count := [], last_message_time := [] } "c" 5).1
      = false :=
  (c7_reset_branch_always_rejects
    { message_count := [], last_message_time := [] } "c" 5
    (Or.inl rfl)).1

/-! Claim C5. -/

set_option maxRecDepth 8000 in
/-- Counterexample to C5's reset clause: the per-chat window does not reset
when one hour has elapsed since the first counted event of the window.  After
the window's first counted event at t = 10, the event at t = 3611 (more than
3600 s later) is still rejected and the counter still reads 20 — because the
code measures the hour from the chat's recorded last-send timestamp, which
every accepted event refreshes. -/
theorem c5_counterexample :
    (rateRun { message_count := [], last_message_time := [] } c5Events).2
      = [false, true, true, true, true, true, true, true, true, true, true,
         true, true, true, true, true, true, true, true, true, true, false]
    ∧ dictFind
        (rateRun { message_count := [], last_message_time := [] } c5Events).1.message_count
        "c" = some 20 := by
  norm_num [c5Events, rateRun, checkRateLimit, dictFind, dictGetD, dictSet]

/-- Claim C5 as amended: the rate-limit check enforces minimum spacing and
the 20-event cap, but the per-chat window resets when more than one hour has
elapsed since the chat's recorded last-send timestamp — refreshed by every
accepted event and by every reset — not since the first counted event of the
window.  Conjuncts: (1) an event less than 2 seconds after the recorded
last-send timestamp is rejected; (2) with the chat known and no hour elapsed
since the recorded last-send, a full counter rejects the event and leaves the
state unchanged; (3) with the chat known and more than an hour since the
recorded last-send, the window resets (counter 0, last-send now) and the
event itself is rejected; (4) the counter never exceeds 20. -/
theorem c5_rate_limit_amended (st : RateState) (chat : String) (now : ℚ) :
    (∀ l, dictFind st.last_message_time chat = some l → now - l < 2 →
      (checkRateLimit st chat now).1 = false)
    ∧ ((dictFind st.message_count chat).isSome →
        ¬ now - dictGetD st.last_message_time chat 0 > 3600 →
        20 ≤ dictGetD st.message_count chat 0 →
        checkRateLimit st chat now = (false, st))
    ∧ ((dictFind st.message_count chat).isSome →
        now - dictGetD st.last_message_time chat 0 > 3600 →
        (checkRateLimit st chat now).1 = false ∧
        dictFind (checkRateLimit st chat now).2.message_count chat = some 0 ∧
        dictFind (checkRateLimit st chat now).2.last_message_time chat = some now)
    ∧ (dictGetD st.message_count chat 0 ≤ 20 →
        dictGetD (checkRateLimit st chat now).2.message_count chat 0 ≤ 20) := by
  refine ⟨?_, ?_, ?_, ?_⟩
  · intro l hl hlt
    by_cases hr : ((dictFind st.message_count chat).isNone
        || decide (now - dictGetD st.last_message_time chat 0 > 3600)) = true
    · simp only [checkRateLimit, hr, if_true]
      simp [dictGetD_dictSet_self]
    · simp only [checkRateLimit, hr, if_false]
      by_cases hc : 20 ≤ dictGetD st.message_count chat 0
      · simp [hc]
      · simp [dictGetD, hc, hl, hlt]
  · intro hs hno hc
    have h1 : (dictFind st.message_count chat).isNone = false := by
      rcases hfound : dictFind st.message_count chat with _ | v
      · rw [hfound] at hs
        simp at hs
      · simp
    have hr : ((dictFind st.message_count chat).isNone
        || decide (now - dictGetD st.last_message_time chat 0 > 3600)) = false := by
      simp [h1, hno]
    simp only [checkRateLimit, hr]
    simp [hc]
  · intro hs hgt
    have hr : ((dictFind st.message_count chat).isNone
        || decide (now - dictGetD st.last_message_time chat 0 > 3600)) = true := by
      simp [hgt]
    simp only [checkRateLimit, hr, if_true]
    simp [dictGetD_dictSet_self, dictFind_dictSet_self]
  · intro hle
    by_cases hr : ((dictFind st.message_count chat).isNone
        || decide (now - dictGetD st.last_message_time chat 0 > 3600)) = true
    · simp only [checkRateLimit, hr, if_true]
      simp [dictGetD_dictSet_self]
    · simp only [checkRateLimit, hr, if_false]
      by_cases hc : 20 ≤ dictGetD st.message_count chat 0
      · simp [hc, hle]
      · by_cases hsp : now - dictGetD st.last_message_time chat 0 < 2
        · simp [hc, hsp, hle]
        · simp [hc, hsp, dictGetD_dictSet_self]
          omega

/-- Witness for the amended C5 at a concrete input: an event one second after
the chat's recorded last-send time is rejected. -/
theorem c5_rate_limit_amended_witness :
    (checkRateLimit
      { message_count := [("c", 3)], last_message_time := [("c", 0)] }
      "c" 1).1 = false :=
  (c5_rate_limit_amended
      { message_count := [("c", 3)], last_message_time := [("c", 0)] }
      "c" 1).1 0 (by norm_num [dictFind]) (by norm_num)

/-! Claim C1. -/

/-- When the conversation already exists, the get-or-create upsert returns it
and leaves the store unchanged. -/
theorem getOrCreateConversation_found (db : Db) (chat platform : String)
    (name number : Option String) (conv : Conversation)
    (h : getConversation db chat = some conv) :
    getOrCreateConversation db chat platform name number = (conv, db) := by
  simp [getOrCreateConversation, h]

/-- With `first_message_sent` false, `process_incoming_message` returns
`None` before the persistence and AI-generation steps: no store change, no
reply, no AI call. -/
theorem processIncomingMessage_gate_blocked (cfg : Config) (db : Db)
    (chat : String) (conv : Conversation) (text : Option String)
    (mtype : String) (mpath mdesc : Option String)
    (ai : Except Unit (String × Nat))
    (hc : getConversation db chat = some conv)
    (hf : conv.first_message_sent = false) :
    processIncomingMessage cfg db chat text mtype mpath mdesc ai
      = { db := db, response := none, aiCalls := 0 } := by
  simp [processIncomingMessage, hc, hf]

/-- With the conversation existing, `first_message_sent` false and no pending
first message, one `handle_incoming_message` turn changes nothing: nothing is
sent, nothing stored, no AI call. -/
theorem handleIncomingMessage_gate_blocked (cfg : Config) (cm : CMState)
    (db : Db) (chat name number : String) (conv : Conversation)
    (text : Option String) (mtype : String) (mpath mdesc : Option String)
    (ai : Except Unit (String × Nat))
    (hc : getConversation db chat = some conv)
    (hf : conv.first_message_sent = false)
    (hp : getPendingFirstMessage cm chat = none) :
    handleIncomingMessage cfg cm db chat name number text mtype mpath mdesc ai
      = { cm := cm, db := db, sent := [], aiCalls := 0 } := by
  simp only [handleIncomingMessage, getOrCreateConversation_found db chat
    "whatsapp" (some name) (some number) conv hc, hp]
  simp [handleAiPath,
    processIncomingMessage_gate_blocked cfg db chat conv text mtype mpath mdesc ai hc hf]

/-- Claim C1: for a conversation whose `first_message_sent` flag is false and
which has no pending first message configured, processing any number of
inbound events makes no AI call and persists no assistant message —
`process_incoming_message` returns `None` at the gate check on every turn,
and the manager state and durable store are left untouched (so in particular
no assistant-role row is ever appended). -/
theorem c1_no_ai_while_gate_closed (cfg : Config) (cm : CMState) (db : Db)
    (chat name number : String) (conv : Conversation)
    (hc : getConversation db chat = some conv)
    (hf : conv.first_message_sent = false)
    (hp : getPendingFirstMessage cm chat = none) :
    (∀ text mtype mpath mdesc ai,
      processIncomingMessage cfg db chat text mtype mpath mdesc ai
        = { db := db, response := none, aiCalls := 0 })
    ∧ ∀ evs : List InEvent,
        runHandle cfg chat name number cm db evs = (cm, db, [], 0) := by
  refine ⟨fun text mtype mpath mdesc ai =>
    processIncomingMessage_gate_blocked cfg db chat conv text mtype mpath mdesc ai hc hf,
    fun evs => ?_⟩
  induction evs with
  | nil => rfl
  | cons e rest ih =>
      simp only [runHandle,
        handleIncomingMessage_gate_blocked cfg cm db chat name number conv
          e.text e.mtype e.mpath e.mdesc e.ai hc hf hp, ih]
      rfl

/-- Witness for C1 at a concrete input: two inbound events for a gated
conversation leave everything unchanged. -/
theorem c1_no_ai_while_gate_closed_witness :
    runHandle cfgW "c" "Nimi" "0401234567"
      { pending_first_messages := [] } dbW
      [{ text := some "moi" }, { text := some "hei?" }]
      = ({ pending_first_messages := [] }, dbW, [], 0) :=
  (c1_no_ai_while_gate_closed cfgW { pending_first_messages := [] } dbW
      "c" "Nimi" "0401234567" { chat_id := "c", platform := "whatsapp" }
      (by simp [dbW, getConversation]) rfl rfl).2
    [{ text := some "moi" }, { text := some "hei?" }]

/-! Claim C2. -/

theorem dictFind_dictRemove_self {α : Type} (d : List (String × α))
    (k : String) : dictFind (dictRemove d k) k = none := by
  induction d with
  | nil => rfl
  | cons p rest ih =>
      by_cases h : p.1 = k
      · simpa [dictRemove, List.filter_cons, h] using ih
      · simpa [dictRemove, dictFind, List.filter_cons, h] using ih

theorem find?_append_of_none {α : Type} (l₁ l₂ : List α) (p : α → Bool)
    (h : l₁.find? p = none) : (l₁ ++ l₂).find? p = l₂.find? p := by
  induction l₁ with
  | nil => rfl
  | cons a rest ih =>
      rcases ha : p a with _ | _
      · simp only [List.cons_append, List.find?_cons, ha] at h ⊢
        exact ih h
      · simp [List.find?_cons, ha] at h

/-- Marking the first message sent rewrites exactly the conversation's flag. -/
theorem getConversation_markFirstMessageSent (db : Db) (chat : String) :
    getConversation (markFirstMessageSent db chat) chat
      = (getConversation db chat).map
          (fun c => { c with first_message_sent := true }) := by
  unfold getConversation markFirstMessageSent
  induction db.conversations with
  | nil => rfl
  | cons c rest ih =>
      by_cases h : c.chat_id = chat
      · simp [List.find?_cons, h]
      · simpa [List.find?_cons, h] using ih

/-- After the get-or-create upsert the conversation exists. -/
theorem getConversation_getOrCreate (db : Db) (chat platform : String)
    (name number : Option String) :
    ∃ c, getConversation
        (getOrCreateConversation db chat platform name number).2 chat = some c := by
  rcases h : getConversation db chat with _ | c
  · have hnew : getConversation
        (getOrCreateConversation db chat platform name number).2 chat
        = some { chat_id := chat, platform := platform,
                 contact_name := name, contact_number := number } := by
      simp only [getOrCreateConversation, h]
      unfold getConversation at h ⊢
      rw [find?_append_of_none _ _ _ h]
      simp [List.find?_cons]
    exact ⟨_, hnew⟩
  · exact ⟨c, by simp [getOrCreateConversation, h]⟩

/-- Counterexample to C2 as stated: an empty pending first message counts as
"configured" (set via `set_pending_first_message` and not yet cleared), yet
the next inbound event does not discharge the gate — Python's truthiness test
`if pending_first:` treats the empty string as absent, so nothing is sent,
the flag stays false and the pending entry is not removed. -/
theorem c2_counterexample :
    (handleIncomingMessage cfgW
        { pending_first_messages := [("c", { message := "" })] } dbW
        "c" "Nimi" "0401234567" (some "moi") "text" none none (.error ())).sent
      = []
    ∧ getPendingFirstMessage
        (handleIncomingMessage cfgW
          { pending_first_messages := [("c", { message := "" })] } dbW
          "c" "Nimi" "0401234567" (some "moi") "text" none none (.error ())).cm
        "c" = some ""
    ∧ (getConversation
        (handleIncomingMessage cfgW
          { pending_first_messages := [("c", { message := "" })] } dbW
          "c" "Nimi" "0401234567" (some "moi") "text" none none (.error ())).db
        "c").map (fun c => c.first_message_sent) = some false := by
  refine ⟨?_, ?_, ?_⟩ <;>
    simp [handleIncomingMessage, handleAiPath, processIncomingMessage,
      getOrCreateConversation, getConversation, getPendingFirstMessage,
      dictFind, dbW, cfgW]

/-- Claim C2 as amended (the pending first message must be nonempty): with a
nonempty pending first message M configured for the chat, the next inbound
event sends exactly M, marks `first_message_sent` true in the durable store,
removes the chat's pending entry, and makes no AI call on that turn. -/
theorem c2_gate_discharge_amended (cfg : Config) (cm : CMState) (db : Db)
    (chat name number : String) (text : Option String) (mtype : String)
    (mpath mdesc : Option String) (ai : Except Unit (String × Nat))
    (m : String) (hm : getPendingFirstMessage cm chat = some m)
    (hne : m ≠ "") :
    (handleIncomingMessage cfg cm db chat name number text mtype mpath mdesc ai).sent
      = [m]
    ∧ (handleIncomingMessage cfg cm db chat name number text mtype mpath mdesc ai).aiCalls
      = 0
    ∧ getPendingFirstMessage
        (handleIncomingMessage cfg cm db chat name number text mtype mpath mdesc ai).cm
        chat = none
    ∧ ∃ conv, getConversation
        (handleIncomingMessage cfg cm db chat name number text mtype mpath mdesc ai).db
        chat = some conv ∧ conv.first_message_sent = true := by
  have hout : handleIncomingMessage cfg cm db chat name number text mtype mpath mdesc ai
      = { cm := clearPendingFirstMessage cm chat,
          db := markFirstMessageSent
            (getOrCreateConversation db chat "whatsapp" (some name) (some number)).2 chat,
          sent := [m], aiCalls := 0 } := by
    simp [handleIncomingMessage, hm, hne]
  rw [hout]
  refine ⟨rfl, rfl, ?_, ?_⟩
  · simp [getPendingFirstMessage, clearPendingFirstMessage, dictFind_dictRemove_self]
  · obtain ⟨c, hcmem⟩ :=
      getConversation_getOrCreate db chat "whatsapp" (some name) (some number)
    refine ⟨{ c with first_message_sent := true }, ?_, rfl⟩
    rw [getConversation_markFirstMessageSent, hcmem, Option.map_some']

/-- Witness for the amended C2 at a concrete input: the configured pending
text "Hei! Miten voin auttaa?" is dispatched verbatim on the next inbound
event. -/
theorem c2_gate_discharge_amended_witness :
    (handleIncomingMessage cfgW
        { pending_first_messages :=
            [("c", { message := "Hei! Miten voin auttaa?" })] } dbW
        "c" "Nimi" "0401234567" (some "moi") "text" none none (.error ())).sent
      = ["Hei! Miten voin auttaa?"] :=
  (c2_gate_discharge_amended cfgW
      { pending_first_messages :=
          [("c", { message := "Hei! Miten voin auttaa?" })] } dbW
      "c" "Nimi" "0401234567" (some "moi") "text" none none (.error ())
      "Hei! Miten voin auttaa?"
      (by simp [getPendingFirstMessage, dictFind]) (by simp)).1

/-! Claim C3. -/

theorem addMessage_of_found (db : Db) (chat role content mtype : String)
    (mpath : Option String) (tok : Nat) (ptime : Option ℚ)
    (conv : Conversation) (hc : getConversation db chat = some conv) :
    addMessage db chat role content mtype mpath tok ptime
      = some { conversations := db.conversations,
               messages := db.messages ++
                 [{ chat_id := chat, role := role, content := some content,
                    message_type := mtype, media_path := mpath,
                    token_count := tok, processing_time := ptime }] } := by
  simp [addMessage, hc]

theorem getOrCreateConversation_messages (db : Db) (chat platform : String)
    (name number : Option String) :
    (getOrCreateConversation db chat platform name number).2.messages
      = db.messages := by
  rcases h : getConversation db chat with _ | c <;>
    simp [getOrCreateConversation, h]

/-- Counterexample to C3 as stated: the inbound user message is not persisted
unconditionally.  On a turn with `first_message_sent` false and no pending
message, and likewise on the turn that discharges a nonempty pending first
message, the message table stays empty — the persistence step sits after the
gate check in `process_incoming_message`, and the gate-discharge path of
`handle_incoming_message` never calls it. -/
theorem c3_counterexample :
    (handleIncomingMessage cfgW { pending_first_messages := [] } dbW
        "c" "Nimi" "0401234567" (some "moi") "text" none none (.error ())).db.messages
      = []
    ∧ (handleIncomingMessage cfgW
        { pending_first_messages := [("c", { message := "Hei!" })] } dbW
        "c" "Nimi" "0401234567" (some "moi") "text" none none (.error ())).db.messages
      = [] := by
  constructor <;>
    simp [handleIncomingMessage, handleAiPath, processIncomingMessage,
      getOrCreateConversation, getConversation, getPendingFirstMessage,
      markFirstMessageSent, dictFind, dbW, cfgW]

/-- Claim C3 as amended: the inbound user message is persisted exactly on the
turns that pass the first-message gate.  When the conversation exists and
`first_message_sent` is true, the stored rows extend by the user row — with
any truthy media-derived description prefixed into its content — possibly
followed by the assistant row; when `first_message_sent` is false the store
is unchanged; and the turn that discharges a nonempty pending first message
persists nothing. -/
theorem c3_user_persistence_amended (cfg : Config) (db : Db) (chat : String)
    (conv : Conversation) (text : Option String) (mtype : String)
    (mpath mdesc : Option String) (ai : Except Unit (String × Nat))
    (hc : getConversation db chat = some conv) :
    (conv.first_message_sent = true →
      ∃ rest, (processIncomingMessage cfg db chat text mtype mpath mdesc ai).db.messages
        = db.messages
            ++ mkUserMessage chat (fullContentOf text mtype mpath mdesc) mtype mpath
            :: rest)
    ∧ (conv.first_message_sent = false →
        (processIncomingMessage cfg db chat text mtype mpath mdesc ai).db = db)
    ∧ (∀ (cm : CMState) (name number m : String),
        getPendingFirstMessage cm chat = some m → m ≠ "" →
        (handleIncomingMessage cfg cm db chat name number text mtype mpath mdesc ai).db.messages
          = db.messages) := by
  refine ⟨?_, ?_, ?_⟩
  · intro hf
    have hadd := addMessage_of_found db chat "user"
      (fullContentOf text mtype mpath mdesc) mtype mpath 0 none conv hc
    rcases ai with _ | ⟨resp, tok⟩
    · refine ⟨[], ?_⟩
      simp [processIncomingMessage, hc, hf, hadd, mkUserMessage]
    · have hc1 : getConversation
          { conversations := db.conversations,
            messages := db.messages ++
              [mkUserMessage chat (fullContentOf text mtype mpath mdesc) mtype mpath] }
          chat = some conv := hc
      have hadd2 := addMessage_of_found
        { conversations := db.conversations,
          messages := db.messages ++
            [mkUserMessage chat (fullContentOf text mtype mpath mdesc) mtype mpath] }
        chat "assistant" resp "text" none tok (some 0) conv hc1
      have hex : (processIncomingMessage cfg db chat text mtype mpath mdesc
            (.ok (resp, tok))).db.messages
          = db.messages
            ++ mkUserMessage chat (fullContentOf text mtype mpath mdesc) mtype mpath
            :: [{ chat_id := chat, role := "assistant", content := some resp,
                  message_type := "text", media_path := none,
                  token_count := tok, processing_time := some 0 }] := by
        simp only [mkUserMessage] at hadd hadd2
        simp [processIncomingMessage, hc, hf, hadd, hadd2, mkUserMessage]
      exact ⟨_, hex⟩
  · intro hf
    have h := processIncomingMessage_gate_blocked cfg db chat conv
      text mtype mpath mdesc ai hc hf
    rw [h]
  · intro cm name number m hm hne
    have hout : handleIncomingMessage cfg cm db chat name number text mtype mpath mdesc ai
        = { cm := clearPendingFirstMessage cm chat,
            db := markFirstMessageSent
              (getOrCreateConversation db chat "whatsapp" (some name) (some number)).2 chat,
            sent := [m], aiCalls := 0 } := by
      simp [handleIncomingMessage, hm, hne]
    rw [hout]
    show (markFirstMessageSent _ chat).messages = db.messages
    rw [show ∀ d : Db, (markFirstMessageSent d chat).messages = d.messages from fun d => rfl]
    exact getOrCreateConversation_messages db chat "whatsapp" (some name) (some number)

/-- Witness for the amended C3 at a concrete input: a gate-blocked turn
leaves the store untouched. -/
theorem c3_user_persistence_amended_witness :
    (processIncomingMessage cfgW dbW "c" (some "moi") "text" none none
        (.error ())).db = dbW :=
  (c3_user_persistence_amended cfgW dbW "c"
      { chat_id := "c", platform := "whatsapp" } (some "moi") "text" none none
      (.error ()) (by simp [dbW, getConversation])).2.1 rfl

/-! Claim C6. -/

/-- Claim C6: for a conversation past the first-message gate, when the
AI-generation call raises after the inbound user message has been persisted,
`process_incoming_message` catches the exception and returns `None`; the
store has gained exactly the user row (no assistant row), and that user row
is retrievable from the conversation history afterwards. -/
theorem c6_generation_failure_durability (cfg : Config) (db : Db)
    (chat : String) (conv : Conversation) (text : Option String)
    (mtype : String) (mpath mdesc : Option String)
    (hc : getConversation db chat = some conv)
    (hf : conv.first_message_sent = true) :
    (processIncomingMessage cfg db chat text mtype mpath mdesc (.error ())).response
      = none
    ∧ (processIncomingMessage cfg db chat text mtype mpath mdesc (.error ())).db.messages
      = db.messages
          ++ [mkUserMessage chat (fullContentOf text mtype mpath mdesc) mtype mpath]
    ∧ mkUserMessage chat (fullContentOf text mtype mpath mdesc) mtype mpath
        ∈ getConversationHistory
            (processIncomingMessage cfg db chat text mtype mpath mdesc (.error ())).db
            chat 50 := by
  have hadd := addMessage_of_found db chat "user"
    (fullContentOf text mtype mpath mdesc) mtype mpath 0 none conv hc
  have hout : processIncomingMessage cfg db chat text mtype mpath mdesc (.error ())
      = { db := { conversations := db.conversations,
                  messages := db.messages ++
                    [mkUserMessage chat (fullContentOf text mtype mpath mdesc) mtype mpath] },
          response := none, aiCalls := 1 } := by
    simp only [mkUserMessage] at hadd
    simp [processIncomingMessage, hc, hf, hadd, mkUserMessage]
  rw [hout]
  refine ⟨rfl, rfl, ?_⟩
  have hc1 : getConversation
      { conversations := db.conversations,
        messages := db.messages ++
          [mkUserMessage chat (fullContentOf text mtype mpath mdesc) mtype mpath] } chat
      = some conv := hc
  simp only [getConversationHistory, hc1, chatMessages]
  simp only [List.filter_append, List.reverse_append]
  simp [mkUserMessage, List.mem_reverse]

/-- Witness for C6 at a concrete input: a failing AI call yields no reply. -/
theorem c6_generation_failure_durability_witness :
    (processIncomingMessage cfgW dbT "c" (some "moi") "text" none none
        (.error ())).response = none :=
  (c6_generation_failure_durability cfgW dbT "c"
      { chat_id := "c", platform := "whatsapp", first_message_sent := true }
      (some "moi") "text" none none
      (by simp [dbT, getConversation]) rfl).1

/-! Claim C4. -/

/-- Evaluation of the operative listener at C4's failing input: event
identifier 2 from individual chat "c" is delivered by the unread fetch in two
different poll cycles (at t = 5 and t = 10, after a warm-up event at t = 0),
and the per-message processing step — hence the Conversation Pipeline — runs
twice for it.  `WhatsAppBotImplementation._message_listener` keeps no dedup
window at all, so nothing discards the second delivery; the deque-based
window the claim describes exists only in `src/whatsapp/whatsapp_bot.py`'s
fallback listener, whose module fails to import. -/
theorem c4_redelivered_event_processed_twice :
    (implListenerRun ({ message_count := [], last_message_time := [] }, [])
      [[{ msg_id := 1, chat_id := "c", tstamp := 0 },
        { msg_id := 2, chat_id := "c", tstamp := 5 }],
       [{ msg_id := 2, chat_id := "c", tstamp := 10 }]]).2 = [2, 2] := by
  norm_num [implListenerRun, implListenerCycle, implProcessEvent,
    checkRateLimit, dictFind, dictGetD, dictSet, List.foldl]

/-! Claim C10. -/

/-- When the driver never reports a completed login, the wait loop returns
the timeout from every starting time. -/
theorem waitLogin_eq_none (loggedIn : Nat → Bool)
    (h : ∀ s, loggedIn s = false) : ∀ t, waitLogin loggedIn t = none := by
  have key : ∀ n t, 123 - t ≤ n → waitLogin loggedIn t = none := by
    intro n
    induction n with
    | zero =>
        intro t ht
        have h120 : 120 < t := by omega
        rw [waitLogin]
        simp [h t, h120]
    | succ n ih =>
        intro t ht
        rw [waitLogin]
        simp only [h t, Bool.false_eq_true, if_false]
        by_cases h120 : 120 < t
        · simp [h120]
        · simp only [h120, if_false]
          exact ih (t + 2) (by omega)
  exact fun t => key (123 - t) t (by omega)

/-- When login is completed from time `t₀ ≤ 120` on, the wait loop observes
it at some poll not later than elapsed time 122. -/
theorem waitLogin_eq_some (loggedIn : Nat → Bool) (t₀ : Nat)
    (h120 : t₀ ≤ 120) (h : ∀ s, t₀ ≤ s → loggedIn s = true) :
    ∀ t, t ≤ 122 → ∃ r, waitLogin loggedIn t = some r ∧ r ≤ 122 := by
  have key : ∀ n t, 123 - t ≤ n → t ≤ 122 →
      ∃ r, waitLogin loggedIn t = some r ∧ r ≤ 122 := by
    intro n
    induction n with
    | zero => intro t ht h122; omega
    | succ n ih =>
        intro t ht h122
        by_cases hl : loggedIn t = true
        · refine ⟨t, ?_, h122⟩
          rw [waitLogin]
          simp [hl]
        · have htlt : t < t₀ := by
            by_contra hge
            exact hl (h t (by omega))
          rw [waitLogin]
          simp only [hl, if_false]
          have h120' : ¬ 120 < t := by omega
          simp only [h120', if_false]
          exact ih (t + 2) (by omega) (by omega)
  exact fun t h122 => key (123 - t) t (by omega) h122

/-- Claim C10: on a connect attempt with no valid saved session, `start`
polls login completion at a fixed 2-second interval against a 120-second
timeout.  If the driver reports login from some time within the bound, the
attempt succeeds and `whatsapp_connected = true` is recorded; if login never
completes, the attempt raises the authentication-timeout error and
`whatsapp_connected = false` is recorded. -/
theorem c10_start_login_bounded_wait :
    (∀ (loggedIn : Nat → Bool) (t₀ : Nat), t₀ ≤ 120 →
      (∀ s, t₀ ≤ s → loggedIn s = true) →
      startWa loggedIn = (.ok (), true))
    ∧ ∀ loggedIn : Nat → Bool, (∀ s, loggedIn s = false) →
        startWa loggedIn
          = (.error "WhatsApp login timeout - QR code not scanned", false) := by
  constructor
  · intro loggedIn t₀ h120 h
    obtain ⟨r, hr, _⟩ := waitLogin_eq_some loggedIn t₀ h120 h 0 (by omega)
    simp [startWa, hr]
  · intro loggedIn h
    simp [startWa, waitLogin_eq_none loggedIn h 0]

/-- Witness for C10 at concrete inputs: a driver that is logged in from the
start connects; a driver that never logs in fails with the timeout error and
a false connected status. -/
theorem c10_start_login_bounded_wait_witness :
    startWa (fun _ => true) = (.ok (), true)
    ∧ startWa (fun _ => false)
      = (.error "WhatsApp login timeout - QR code not scanned", false) :=
  ⟨c10_start_login_bounded_wait.1 (fun _ => true) 0 (by omega)
      (fun _ _ => rfl),
    c10_start_login_bounded_wait.2 (fun _ => false) (fun _ => rfl)⟩

/-! Claim C9. -/

/-- Claim C9: the AI context is built from at most
`max_conversation_history` most-recent messages (the configuration field,
default 50), kept in chronological order, with system-role rows excluded,
each remaining row mapped to its ordered (role, content) pair.  The first
conjunct characterises the result as exactly the map over the non-system
rows of the chronological `n`-suffix of the conversation's messages. -/
theorem c9_context_assembly (cfg : Config) (db : Db) (chat : String)
    (conv : Conversation) (hc : getConversation db chat = some conv) :
    buildContext cfg db chat
      = (((chatMessages db chat).drop
            ((chatMessages db chat).length - cfg.max_conversation_history)).filter
          (fun m => !(m.role == "system"))).map
        (fun m => (m.role, m.content.getD ""))
    ∧ (buildContext cfg db chat).length ≤ cfg.max_conversation_history
    ∧ ∀ p ∈ buildContext cfg db chat, p.1 ≠ "system" := by
  refine ⟨?_, ?_, ?_⟩
  · simp only [buildContext, getConversationHistory, hc]
    rw [← List.rtake_eq_reverse_take_reverse]
    simp [List.rtake, formatHistoryForAI]
  · simp only [buildContext, formatHistoryForAI, List.length_map]
    calc (List.filter (fun m => !(m.role == "system"))
            (getConversationHistory db chat cfg.max_conversation_history)).length
        ≤ (getConversationHistory db chat cfg.max_conversation_history).length :=
          List.length_filter_le _ _
      _ ≤ cfg.max_conversation_history := by
          simp only [getConversationHistory, hc, List.length_reverse]
          exact List.length_take_le _ _
  · intro p hp
    simp only [buildContext, formatHistoryForAI, List.mem_map] at hp
    obtain ⟨m, hm, rfl⟩ := hp
    have hq := List.of_mem_filter hm
    simpa using hq

/-- Witness for C9 at a concrete input: the assembled context respects the
configured bound of 50 messages. -/
theorem c9_context_assembly_witness :
    (buildContext cfgW dbH "c").length ≤ 50 :=
  (c9_context_assembly cfgW dbH "c"
      { chat_id := "c", platform := "whatsapp", first_message_sent := true }
      (by simp [dbH, getConversation])).2.1

/-! Claim C8. -/

theorem find?_congrOn {α : Type} (p q : α → Bool) (l : List α)
    (h : ∀ a ∈ l, p a = q a) : l.find? p = l.find? q := by
  induction l with
  | nil => rfl
  | cons a l ih =>
      have ha := h a (List.mem_cons_self a l)
      simp only [List.find?_cons]
      rw [← ha]
      cases hpa : p a
      · exact ih (fun b hb => h b (List.mem_cons_of_mem a hb))
      · rfl

/-- Evaluation of `specLevelKey` on a cons: the head wins when its distance
is below every remaining entry's distance; otherwise the scan continues over
the tail with the head folded into the comparison table. -/
theorem spec_cons_eval (level : ℚ) (a : String × ℚ) (t : List (String × ℚ)) :
    specLevelKey level (a :: t)
      = if t.all (fun q => decide (|a.2 - level| ≤ |q.2 - level|)) then
          some a.1
        else
          (t.find? (fun p =>
            decide (|p.2 - level| ≤ |a.2 - level|)
            && t.all (fun q => decide (|p.2 - level| ≤ |q.2 - level|)))).map
            Prod.fst := by
  have htail : (t.find? fun p =>
        (a :: t).all fun q => decide (|p.2 - level| ≤ |q.2 - level|))
      = t.find? (fun p =>
          decide (|p.2 - level| ≤ |a.2 - level|)
          && t.all (fun q => decide (|p.2 - level| ≤ |q.2 - level|))) := by
    refine find?_congrOn _ _ t (fun p _ => ?_)
    simp [List.all_cons]
  unfold specLevelKey
  rw [List.find?_cons]
  cases hcond : t.all (fun q => decide (|a.2 - level| ≤ |q.2 - level|))
  · simp only [List.all_cons, hcond, Bool.and_false, le_refl, decide_True,
      Bool.true_and, htail]
    simp
  · simp only [List.all_cons, hcond, le_refl, decide_True, Bool.true_and,
      Option.map_some']
    simp

/-- Replacing the head entry's value by one at the same distance from the
level leaves the nearest-match selection unchanged. -/
theorem spec_replace_same (level : ℚ) (k : String) (x y : ℚ)
    (t : List (String × ℚ)) (h : |x - level| = |y - level|) :
    specLevelKey level ((k, x) :: t) = specLevelKey level ((k, y) :: t) := by
  rw [spec_cons_eval, spec_cons_eval]
  dsimp only
  rw [h]

/-- A second entry strictly closer to the level than the head makes the head
irrelevant to the nearest-match selection. -/
theorem spec_drop_head (level : ℚ) (a b : String × ℚ)
    (t : List (String × ℚ)) (h : |b.2 - level| < |a.2 - level|) :
    specLevelKey level (a :: b :: t) = specLevelKey level (b :: t) := by
  have hna : (decide (|a.2 - level| ≤ |b.2 - level|)) = false := by
    simp [not_le.mpr h]
  have hba : (decide (|b.2 - level| ≤ |a.2 - level|)) = true := by
    simp [le_of_lt h]
  rw [spec_cons_eval, spec_cons_eval]
  simp only [List.all_cons, hna, Bool.false_and, if_false, Bool.false_eq_true,
    List.find?_cons, hba, Bool.true_and, le_refl, decide_True]
  cases hcb : t.all (fun q => decide (|b.2 - level| ≤ |q.2 - level|))
  · simp only [Bool.and_false, if_false, Bool.false_eq_true]
    refine congrArg (Option.map Prod.fst) (find?_congrOn _ _ t fun p _ => ?_)
    by_cases hpb : |p.2 - level| ≤ |b.2 - level|
    · have hpa : |p.2 - level| ≤ |a.2 - level| := le_of_lt (lt_of_le_of_lt hpb h)
      simp [hpa, hpb]
    · simp [hpb]
  · simp

/-- A second entry at least as far from the level as the head is irrelevant
to the nearest-match selection. -/
theorem spec_drop_second (level : ℚ) (a b : String × ℚ)
    (t : List (String × ℚ)) (h : |a.2 - level| ≤ |b.2 - level|) :
    specLevelKey level (a :: b :: t) = specLevelKey level (a :: t) := by
  have hab : (decide (|a.2 - level| ≤ |b.2 - level|)) = true := by simp [h]
  rw [spec_cons_eval, spec_cons_eval]
  simp only [List.all_cons, hab, Bool.true_and]
  cases hc : t.all (fun q => decide (|a.2 - level| ≤ |q.2 - level|))
  · simp only [if_false, Bool.false_eq_true, List.find?_cons]
    have hbfalse : (decide (|b.2 - level| ≤ |a.2 - level|)
        && (decide (|b.2 - level| ≤ |b.2 - level|)
            && t.all fun q => decide (|b.2 - level| ≤ |q.2 - level|))) = false := by
      by_cases hba : |b.2 - level| ≤ |a.2 - level|
      · have heq : |a.2 - level| = |b.2 - level| := le_antisymm h hba
        rw [← heq]
        simp [hc]
      · simp [hba]
    rw [hbfalse]
    refine congrArg (Option.map Prod.fst) (find?_congrOn _ _ t fun p _ => ?_)
    by_cases hpa : |p.2 - level| ≤ |a.2 - level|
    · have hpb : |p.2 - level| ≤ |b.2 - level| := le_trans hpa h
      simp [hpa, hpb]
    · simp [hpa]
  · simp

/-- Accumulator invariant of the `_get_level_key` scan: running the loop with
current best key `k` at distance `d` computes the spec's nearest-match answer
for the table extended in front with a virtual entry for `k` at distance
`d`. -/
theorem getLevelKeyGo_spec (level : ℚ) :
    ∀ (rest : List (String × ℚ)) (k : String) (d : ℚ), 0 ≤ d →
      getLevelKeyGo level rest (some k) (some d)
        = specLevelKey level ((k, level + d) :: rest) := by
  intro rest
  induction rest with
  | nil =>
      intro k d hd
      simp [getLevelKeyGo, specLevelKey, List.find?_cons, List.all_cons,
        add_sub_cancel_left]
  | cons b rest ih =>
      intro k d hd
      rcases b with ⟨k', v'⟩
      by_cases hlt : |v' - level| < d
      · have hgo : getLevelKeyGo level ((k', v') :: rest) (some k) (some d)
            = getLevelKeyGo level rest (some k') (some |v' - level|) := by
          simp [getLevelKeyGo, hlt]
        rw [hgo, ih k' (|v' - level|) (abs_nonneg _)]
        have hdh : |((k', v') : String × ℚ).2 - level|
            < |((k, level + d) : String × ℚ).2 - level| := by
          dsimp only
          rw [add_sub_cancel_left, abs_of_nonneg hd]
          exact hlt
        rw [spec_drop_head level (k, level + d) (k', v') rest hdh]
        exact (spec_replace_same level k' v' (level + |v' - level|) rest
          (by rw [add_sub_cancel_left, abs_abs])).symm
      · have hgo : getLevelKeyGo level ((k', v') :: rest) (some k) (some d)
            = getLevelKeyGo level rest (some k) (some d) := by
          simp [getLevelKeyGo, hlt]
        rw [hgo, ih k d hd]
        have hds : |((k, level + d) : String × ℚ).2 - level|
            ≤ |((k', v') : String × ℚ).2 - level| := by
          dsimp only
          rw [add_sub_cancel_left, abs_of_nonneg hd]
          exact not_lt.mp hlt
        exact (spec_drop_second level (k, level + d) (k', v') rest hds).symm

/-- The source's `_get_level_key` computes exactly the spec's nearest-match
lookup: the closest configured numeric level wins, with ties resolved in
favour of the first-encountered key of the table. -/
theorem getLevelKey_eq_specLevelKey (level : ℚ)
    (table : List (String × ℚ)) :
    getLevelKey level table = specLevelKey level table := by
  cases table with
  | nil => rfl
  | cons b rest =>
      rcases b with ⟨k, v⟩
      have h1 : getLevelKey level ((k, v) :: rest)
          = getLevelKeyGo level rest (some k) (some |v - level|) := by
        simp [getLevelKey, getLevelKeyGo]
      rw [h1, getLevelKeyGo_spec level rest k (|v - level|) (abs_nonneg _)]
      exact spec_replace_same level k (level + |v - level|) v rest
        (by rw [add_sub_cancel_left, abs_abs])

/-- Claim C8: the effective system prompt is the conversation's custom prompt
whenever a truthy (nonempty) one is set; otherwise — for an absent custom
prompt, and likewise for the empty one that Python's `if custom_prompt:`
treats as unset — it is the base prompt extended with the tone and flirt
modifiers selected by the spec's nearest-match lookup, in which the
configured numeric level closest to the requested level wins and ties go to
the first-encountered key. -/
theorem c8_system_prompt_selection (cfg : Config) (tone flirt : ℚ) :
    (∀ s : String, s ≠ "" → getSystemPrompt cfg tone flirt (some s) = s)
    ∧ getSystemPrompt cfg tone flirt none = specDefaultPrompt cfg tone flirt
    ∧ getSystemPrompt cfg tone flirt (some "")
      = specDefaultPrompt cfg tone flirt := by
  refine ⟨fun s hs => by simp [getSystemPrompt, hs], ?_, ?_⟩
  · simp only [getSystemPrompt, buildDefaultPrompt, specDefaultPrompt,
      getLevelKey_eq_specLevelKey]
  · simp only [getSystemPrompt, if_pos rfl, buildDefaultPrompt,
      specDefaultPrompt, getLevelKey_eq_specLevelKey]
    simp

/-- Witness for C8 at a concrete input: a nonempty custom prompt is returned
verbatim. -/
theorem c8_system_prompt_selection_witness :
    getSystemPrompt cfgW (3/10) 0 (some "Oma kehote") = "Oma kehote" :=
  (c8_system_prompt_selection cfgW (3/10) 0).1 "Oma kehote" (by simp)
